import Mathlib

/-!
Shallow embedding of the query-orchestration engine of the repository
(`app/langgraph_agents/supervisor.py`, `app/langgraph_agents/state.py`,
and the chat endpoint of `app/main.py`).

Modelling conventions:
- The external LLM calls (`run_analyst`, `run_knowledge`, `run_planner`,
  `run_transaction`, and the merge LLM used by the synthesizer) are
  parameters, collected in a `Handlers` structure; each may fail with an
  abstract error `ε` (a Python exception), which the scheduler does not catch.
- The classification oracle reply is modelled after JSON decoding: `none`
  stands for the `json.JSONDecodeError` / `IndexError` caught in
  `router_node`; a decoded object is a `ParsedDecision` whose fields may be
  absent (`Option`), matching `decision.get(...)` with its defaults.
  `DecodedReply` widens this to the full decode domain, including replies
  decoding to non-object JSON or to a non-list `agents_to_call`, whose
  uncaught `AttributeError` / `TypeError` paths `router_classify` models.
- Python dicts that preserve insertion order (`agent_outputs`) are modelled
  as association lists with Python dict update semantics (`dictInsert`).
- The LangGraph `StateGraph` with conditional edges is modelled by
  `determine_next_node` plus the fuel-bounded loop `runLoop`; the fuel 15
  mirrors `config = \x7b"recursion_limit": 15\x7d` in `process_query`.
-/

namespace Supervisor

variable {ε : Type}

/-- Output stored in `state["agent_outputs"]` for one agent: the keys
`response`, `tool_calls`, and (only for the knowledge agent) `sources`.
`sources = none` models the key being absent from the Python dict. -/
structure CapabilityOutput where
  response : String
  tool_calls : List String
  sources : Option (List String)
deriving Repr, DecidableEq

/-- Return value of `run_analyst` / `run_planner` / `run_transaction`:
a dict with `response` and `tool_calls`. -/
structure HandlerResult where
  response : String
  tool_calls : List String
deriving Repr, DecidableEq

/-- Return value of `run_knowledge`: additionally carries `sources`. -/
structure KnowledgeResult where
  response : String
  tool_calls : List String
  sources : List String
deriving Repr, DecidableEq

/-- The external collaborators consumed by the scheduler: the four
capability handlers and the merge LLM used by the synthesizer
(`create_router_llm` + `ainvoke` on the combined prompt).  Each call can
raise, modelled by `Except ε`. -/
structure Handlers (ε : Type) where
  run_analyst : Nat → String → Except ε HandlerResult
  run_knowledge : Nat → String → Except ε KnowledgeResult
  run_planner : Nat → String → Except ε HandlerResult
  run_transaction : Nat → String → Except ε HandlerResult
  merge_llm : String → String → Except ε String

/-- A successfully JSON-decoded router reply.  `agents_to_call = none`
models the decoded object lacking the `agents_to_call` key;
`reasoning = none` models a missing `reasoning` key. -/
structure ParsedDecision where
  agents_to_call : Option (List String)
  reasoning : Option String
deriving Repr, DecidableEq

/-- `AgentState` from `state.py` (the fields the supervisor logic reads or
writes; `messages` and `error` are never consulted by the orchestrator). -/
structure AgentState where
  user_id : Nat
  raw_query : String
  next_agent : Option String
  pending_agents : List String
  completed_agents : List String
  agent_outputs : List (String × CapabilityOutput)
  final_response : Option String
deriving Repr, DecidableEq

/-- `create_initial_state` from `state.py` / the initial state built in
`process_query`. -/
def create_initial_state (uid : Nat) (query : String) : AgentState :=
  { user_id := uid
    raw_query := query
    next_agent := none
    pending_agents := []
    completed_agents := []
    agent_outputs := []
    final_response := none }

/-- Python dict assignment `d[k] = v` on an insertion-ordered dict:
update in place if the key exists, else append. -/
def dictInsert (k : String) (v : CapabilityOutput) :
    List (String × CapabilityOutput) → List (String × CapabilityOutput)
  | [] => [(k, v)]
  | (k0, v0) :: rest =>
    if k0 = k then (k, v) :: rest else (k0, v0) :: dictInsert k v rest

/-- Python dict lookup `k in d` / `d[k]`. -/
def dictGet? (k : String) :
    List (String × CapabilityOutput) → Option CapabilityOutput
  | [] => none
  | (k0, v0) :: rest => if k0 = k then some v0 else dictGet? k rest

/-- The hard-coded fallback reasoning string of `router_node`. -/
def fallback_reasoning : String := "Fallback to analyst due to parsing error"

/-- `valid_agents` from `router_node`. -/
def valid_agents : List String := ["analyst", "knowledge", "planner", "transaction"]

/-- The pure core of `router_node` (lines 90-112 of `supervisor.py`): given
the decode outcome of the oracle reply, produce `(agents_to_call, reasoning)`
after defaulting, validation filtering, and the empty-list fallback. -/
def classify (reply : Option ParsedDecision) : List String × String :=
  let parsed : List String × String :=
    match reply with
    | some d => (d.agents_to_call.getD ["analyst"], d.reasoning.getD "")
    | none => (["analyst"], fallback_reasoning)
  let filtered := parsed.fst.filter (fun a => valid_agents.contains a)
  (if filtered.isEmpty then ["analyst"] else filtered, parsed.snd)

/-- `router_node`: store the validated plan, reset `completed_agents`, and
set `next_agent` to the head of the plan (`agents_to_call[0] if
agents_to_call else None`). -/
def router_node (reply : Option ParsedDecision) (state : AgentState) : AgentState :=
  let agents_to_call := (classify reply).fst
  { state with
    pending_agents := agents_to_call
    completed_agents := []
    next_agent := agents_to_call.head? }

/-- The query `analyst_node` passes to `run_analyst`: the raw query. -/
def analyst_query (state : AgentState) : String := state.raw_query

/-- The query `knowledge_node` passes to `run_knowledge`: the raw query. -/
def knowledge_query (state : AgentState) : String := state.raw_query

/-- The query `transaction_node` passes to `run_transaction`: the raw query. -/
def transaction_query (state : AgentState) : String := state.raw_query

/-- The context block built in `planner_node` (lines 185-192 of
`supervisor.py`): non-empty exactly when `agent_outputs` has a
`transaction` entry, in which case it embeds that entry's response text. -/
def planner_context (outputs : List (String × CapabilityOutput)) : String :=
  match dictGet? "transaction" outputs with
  | some txn =>
    "\n\n[CONTEXT: A transaction was just recorded. Details: " ++ txn.response ++ "]\n" ++
      "Your task: Check if the user has any goals related to this purchase and update goal progress if applicable. First call get_goals_status to see all goals."
  | none => ""

/-- The query `planner_node` passes to `run_planner`:
`query = state["raw_query"] + context`. -/
def planner_query (state : AgentState) : String :=
  state.raw_query ++ planner_context state.agent_outputs

/-- `analyst_node`: run the handler (exceptions propagate), record the
output, move `analyst` from pending to completed. -/
def analyst_node (H : Handlers ε) (state : AgentState) : Except ε AgentState :=
  match H.run_analyst state.user_id (analyst_query state) with
  | Except.error e => Except.error e
  | Except.ok result =>
    let pending := state.pending_agents.filter (fun a => a != "analyst")
    Except.ok { state with
      agent_outputs :=
        dictInsert "analyst" ⟨result.response, result.tool_calls, none⟩ state.agent_outputs
      completed_agents := state.completed_agents ++ ["analyst"]
      pending_agents := pending
      next_agent := pending.head? }

/-- `knowledge_node`: like `analyst_node`, additionally storing `sources`. -/
def knowledge_node (H : Handlers ε) (state : AgentState) : Except ε AgentState :=
  match H.run_knowledge state.user_id (knowledge_query state) with
  | Except.error e => Except.error e
  | Except.ok result =>
    let pending := state.pending_agents.filter (fun a => a != "knowledge")
    Except.ok { state with
      agent_outputs :=
        dictInsert "knowledge" ⟨result.response, result.tool_calls, some result.sources⟩
          state.agent_outputs
      completed_agents := state.completed_agents ++ ["knowledge"]
      pending_agents := pending
      next_agent := pending.head? }

/-- `planner_node`: builds the context-augmented query (`planner_query`),
runs the handler, records the output, moves `planner` to completed. -/
def planner_node (H : Handlers ε) (state : AgentState) : Except ε AgentState :=
  match H.run_planner state.user_id (planner_query state) with
  | Except.error e => Except.error e
  | Except.ok result =>
    let pending := state.pending_agents.filter (fun a => a != "planner")
    Except.ok { state with
      agent_outputs :=
        dictInsert "planner" ⟨result.response, result.tool_calls, none⟩ state.agent_outputs
      completed_agents := state.completed_agents ++ ["planner"]
      pending_agents := pending
      next_agent := pending.head? }

/-- `transaction_node`: runs `run_transaction` on the raw query. -/
def transaction_node (H : Handlers ε) (state : AgentState) : Except ε AgentState :=
  match H.run_transaction state.user_id (transaction_query state) with
  | Except.error e => Except.error e
  | Except.ok result =>
    let pending := state.pending_agents.filter (fun a => a != "transaction")
    Except.ok { state with
      agent_outputs :=
        dictInsert "transaction" ⟨result.response, result.tool_calls, none⟩ state.agent_outputs
      completed_agents := state.completed_agents ++ ["transaction"]
      pending_agents := pending
      next_agent := pending.head? }

/-- `synthesizer_node`: with exactly one output, return it verbatim;
otherwise build the labelled blocks and consult the merge LLM. -/
def synthesizer_node (H : Handlers ε) (state : AgentState) : Except ε AgentState :=
  if state.agent_outputs.length = 1 then
    match state.agent_outputs.head? with
    | some entry => Except.ok { state with final_response := some entry.snd.response }
    | none => Except.ok state
  else
    let combined := String.intercalate "\n\n"
      (state.agent_outputs.map
        (fun p => "=== " ++ p.fst.toUpper ++ " AGENT ===\n" ++ p.snd.response))
    match H.merge_llm state.raw_query combined with
    | Except.error e => Except.error e
    | Except.ok response => Except.ok { state with final_response := some response }

/-- `determine_next_node`: the conditional-edge selector.  Python truthiness
(`if next_agent:`) sends both `None` and the empty string to the
synthesizer. -/
def determine_next_node (state : AgentState) : String :=
  match state.next_agent with
  | some a => if a.isEmpty then "synthesizer" else a
  | none => "synthesizer"

/-- The static node table of the `StateGraph`: dispatch one agent node by
name.  A name outside the table cannot arise from a validated plan; the
identity fallback keeps the function total. -/
def dispatch (H : Handlers ε) (name : String) (state : AgentState) : Except ε AgentState :=
  if name = "analyst" then analyst_node H state
  else if name = "knowledge" then knowledge_node H state
  else if name = "planner" then planner_node H state
  else if name = "transaction" then transaction_node H state
  else Except.ok state

/-- The graph-execution loop after the router: follow `determine_next_node`
through agent nodes until the synthesizer runs (or fuel, the recursion
limit, is exhausted).  Handler errors abort the whole run uncaught. -/
def runLoop (H : Handlers ε) : Nat → AgentState → Except ε AgentState
  | 0, state => Except.ok state
  | Nat.succ fuel, state =>
    let nxt := determine_next_node state
    if nxt = "synthesizer" then synthesizer_node H state
    else
      match dispatch H nxt state with
      | Except.error e => Except.error e
      | Except.ok state2 => runLoop H fuel state2

/-- Return value of `process_query`. -/
structure ProcessResult where
  response : String
  agents_used : List String
  agent_outputs : List (String × CapabilityOutput)
deriving Repr, DecidableEq

/-- `config = \x7b"recursion_limit": 15\x7d` in `process_query`. -/
def recursion_limit : Nat := 15

/-- `process_query`: build the initial state, run router then the graph
loop, and package the result dict. -/
def process_query (H : Handlers ε) (reply : Option ParsedDecision)
    (uid : Nat) (query : String) : Except ε ProcessResult :=
  match runLoop H recursion_limit (router_node reply (create_initial_state uid query)) with
  | Except.error e => Except.error e
  | Except.ok result =>
    Except.ok
      { response := result.final_response.getD "I couldn\x27t process your request."
        agents_used := result.completed_agents
        agent_outputs := result.agent_outputs }

/-- `ChatResponse` of `app/main.py` (the fields the chat endpoint sets). -/
structure ChatResponse where
  response : String
  agents_used : List String
  success : Bool
  error : Option String
deriving Repr, DecidableEq

/-- The `chat_message` endpoint of `app/main.py`, after phone-number
resolution (`uid = none` models a failed user lookup); `errString` models
Python `str(e)`. -/
def chat_message (H : Handlers ε) (reply : Option ParsedDecision)
    (uid : Option Nat) (message : String) (errString : ε → String) : ChatResponse :=
  match uid with
  | none =>
    { response := "User not found. Please sync your data first."
      agents_used := []
      success := false
      error := none }
  | some uid =>
    match process_query H reply uid message with
    | Except.ok r =>
      { response := r.response
        agents_used := r.agents_used
        success := true
        error := none }
    | Except.error e =>
      { response := "I\x27m sorry, I encountered an error. Please try again."
        agents_used := []
        success := false
        error := some (errString e) }

/-- Reachable scheduler states: starting from a state, follow the
conditional edges of the compiled graph (successful agent dispatches and
the final synthesizer step). -/
inductive Reaches (H : Handlers ε) : AgentState → AgentState → Prop
  | refl (s : AgentState) : Reaches H s s
  | step {s t u : AgentState} :
      Reaches H s t →
      determine_next_node t ≠ "synthesizer" →
      dispatch H (determine_next_node t) t = Except.ok u →
      Reaches H s u
  | synth {s t u : AgentState} :
      Reaches H s t →
      determine_next_node t = "synthesizer" →
      synthesizer_node H t = Except.ok u →
      Reaches H s u

/-- The scheduler invariant relating a state to the validated plan. -/
def Inv (plan : List String) (s : AgentState) : Prop :=
  (∀ x : String, (x ∈ s.pending_agents ∨ x ∈ s.completed_agents) ↔ x ∈ plan) ∧
  s.completed_agents.Nodup ∧
  (∀ x ∈ s.completed_agents, x ∉ s.pending_agents) ∧
  s.next_agent = s.pending_agents.head? ∧
  (∀ x ∈ s.completed_agents, x ∈ valid_agents) ∧
  (s.agent_outputs.map Prod.fst).Nodup

/-- Deterministic stub handlers that always succeed (used to instantiate
general theorems at concrete sessions). -/
def okHandlers : Handlers Unit :=
  { run_analyst := fun _ _ => Except.ok ⟨"analysis done", ["get_spending_summary"]⟩
    run_knowledge := fun _ _ => Except.ok ⟨"knowledge done", ["search_knowledge_base"], []⟩
    run_planner := fun _ _ => Except.ok ⟨"goal updated", ["get_goals_status"]⟩
    run_transaction := fun _ _ => Except.ok ⟨"txn recorded", ["add_transaction"]⟩
    merge_llm := fun _ _ => Except.ok "merged response" }

/-- Stub handlers that always raise (used to instantiate the
error-propagation theorem at a concrete session). -/
def errHandlers : Handlers Unit :=
  { run_analyst := fun _ _ => Except.error ()
    run_knowledge := fun _ _ => Except.error ()
    run_planner := fun _ _ => Except.error ()
    run_transaction := fun _ _ => Except.error ()
    merge_llm := fun _ _ => Except.error () }

/-! ### The full decode domain of router replies

`ParsedDecision` covers only well-shaped replies.  The Python try-block
catches exactly `(json.JSONDecodeError, IndexError)`, so a reply whose
JSON decodes to a non-object value reaches `decision.get(...)` at line 100
and raises an uncaught `AttributeError`, and a present `agents_to_call`
value that is neither a list nor otherwise iterable raises an uncaught
`TypeError` in the list comprehension at line 109 (which is outside the
try-block).  The types below model that full domain. -/

/-- The uncaught exceptions the router body can raise on ill-shaped
oracle replies. -/
inductive PyErr
  | attributeError
  | typeError
deriving Repr, DecidableEq

/-- A decoded `agents_to_call` field value, by how the list comprehension
treats it: a JSON array of strings (a JSON object also lands here, as
iterating a dict yields its string keys); a JSON string, which Python
iterates character by character; or a non-iterable value (`null`, a
number), which makes the comprehension raise `TypeError`. -/
inductive JsonAgentsField
  | list (l : List String)
  | strVal (s : String)
  | nonIterable
deriving Repr, DecidableEq

/-- The outcome of the decode pipeline of `router_node` over an arbitrary
oracle reply string: the caught decode failure, a decoded non-object
value, or a decoded object with optional `agents_to_call` and `reasoning`
fields. -/
inductive DecodedReply
  | decodeFailure
  | nonDict
  | dictObj (agents_to_call : Option JsonAgentsField) (reasoning : Option String)
deriving Repr, DecidableEq

/-- The list comprehension
`[a for a in agents_to_call if a in valid_agents]` over a decoded
`agents_to_call` value. -/
def filter_agents : JsonAgentsField → Except PyErr (List String)
  | JsonAgentsField.list l =>
    Except.ok (l.filter (fun a => valid_agents.contains a))
  | JsonAgentsField.strVal s =>
    Except.ok ((s.data.map Char.toString).filter (fun a => valid_agents.contains a))
  | JsonAgentsField.nonIterable => Except.error PyErr.typeError

/-- The body of `router_node` (lines 90-112) over the full reply domain:
produces `(agents_to_call, reasoning)` like `classify`, or raises the
uncaught `AttributeError` / `TypeError` on ill-shaped replies. -/
def router_classify : DecodedReply → Except PyErr (List String × String)
  | DecodedReply.decodeFailure => Except.ok (["analyst"], fallback_reasoning)
  | DecodedReply.nonDict => Except.error PyErr.attributeError
  | DecodedReply.dictObj ac rs =>
    match filter_agents (ac.getD (JsonAgentsField.list ["analyst"])) with
    | Except.error e => Except.error e
    | Except.ok filtered =>
      Except.ok (if filtered.isEmpty then ["analyst"] else filtered, rs.getD "")

/-! ### Shape lemmas for the node functions -/

theorem analyst_node_ok {H : Handlers ε} {t u : AgentState}
    (h : analyst_node H t = Except.ok u) :
    ∃ out : CapabilityOutput,
      u.agent_outputs = dictInsert "analyst" out t.agent_outputs ∧
      u.completed_agents = t.completed_agents ++ ["analyst"] ∧
      u.pending_agents = t.pending_agents.filter (fun x => x != "analyst") ∧
      u.next_agent = u.pending_agents.head? ∧
      u.raw_query = t.raw_query ∧ u.user_id = t.user_id ∧
      u.final_response = t.final_response := by
  unfold analyst_node at h
  cases hr : H.run_analyst t.user_id (analyst_query t) with
  | error e => rw [hr] at h; cases h
  | ok r =>
    rw [hr] at h
    simp only [Except.ok.injEq] at h
    subst h
    exact ⟨⟨r.response, r.tool_calls, none⟩, rfl, rfl, rfl, rfl, rfl, rfl, rfl⟩

theorem knowledge_node_ok {H : Handlers ε} {t u : AgentState}
    (h : knowledge_node H t = Except.ok u) :
    ∃ out : CapabilityOutput,
      u.agent_outputs = dictInsert "knowledge" out t.agent_outputs ∧
      u.completed_agents = t.completed_agents ++ ["knowledge"] ∧
      u.pending_agents = t.pending_agents.filter (fun x => x != "knowledge") ∧
      u.next_agent = u.pending_agents.head? ∧
      u.raw_query = t.raw_query ∧ u.user_id = t.user_id ∧
      u.final_response = t.final_response := by
  unfold knowledge_node at h
  cases hr : H.run_knowledge t.user_id (knowledge_query t) with
  | error e => rw [hr] at h; cases h
  | ok r =>
    rw [hr] at h
    simp only [Except.ok.injEq] at h
    subst h
    exact ⟨⟨r.response, r.tool_calls, some r.sources⟩, rfl, rfl, rfl, rfl, rfl, rfl, rfl⟩

theorem planner_node_ok {H : Handlers ε} {t u : AgentState}
    (h : planner_node H t = Except.ok u) :
    ∃ out : CapabilityOutput,
      u.agent_outputs = dictInsert "planner" out t.agent_outputs ∧
      u.completed_agents = t.completed_agents ++ ["planner"] ∧
      u.pending_agents = t.pending_agents.filter (fun x => x != "planner") ∧
      u.next_agent = u.pending_agents.head? ∧
      u.raw_query = t.raw_query ∧ u.user_id = t.user_id ∧
      u.final_response = t.final_response := by
  unfold planner_node at h
  cases hr : H.run_planner t.user_id (planner_query t) with
  | error e => rw [hr] at h; cases h
  | ok r =>
    rw [hr] at h
    simp only [Except.ok.injEq] at h
    subst h
    exact ⟨⟨r.response, r.tool_calls, none⟩, rfl, rfl, rfl, rfl, rfl, rfl, rfl⟩

theorem transaction_node_ok {H : Handlers ε} {t u : AgentState}
    (h : transaction_node H t = Except.ok u) :
    ∃ out : CapabilityOutput,
      u.agent_outputs = dictInsert "transaction" out t.agent_outputs ∧
      u.completed_agents = t.completed_agents ++ ["transaction"] ∧
      u.pending_agents = t.pending_agents.filter (fun x => x != "transaction") ∧
      u.next_agent = u.pending_agents.head? ∧
      u.raw_query = t.raw_query ∧ u.user_id = t.user_id ∧
      u.final_response = t.final_response := by
  unfold transaction_node at h
  cases hr : H.run_transaction t.user_id (transaction_query t) with
  | error e => rw [hr] at h; cases h
  | ok r =>
    rw [hr] at h
    simp only [Except.ok.injEq] at h
    subst h
    exact ⟨⟨r.response, r.tool_calls, none⟩, rfl, rfl, rfl, rfl, rfl, rfl, rfl⟩

theorem dispatch_ok {H : Handlers ε} {a : String} {t u : AgentState}
    (h : dispatch H a t = Except.ok u) :
    (u = t ∧ a ∉ valid_agents) ∨
    (a ∈ valid_agents ∧ ∃ out : CapabilityOutput,
      u.agent_outputs = dictInsert a out t.agent_outputs ∧
      u.completed_agents = t.completed_agents ++ [a] ∧
      u.pending_agents = t.pending_agents.filter (fun x => x != a) ∧
      u.next_agent = u.pending_agents.head? ∧
      u.raw_query = t.raw_query ∧ u.user_id = t.user_id ∧
      u.final_response = t.final_response) := by
  unfold dispatch at h
  by_cases h1 : a = "analyst"
  · subst h1
    rw [if_pos rfl] at h
    exact Or.inr ⟨by decide, analyst_node_ok h⟩
  · rw [if_neg h1] at h
    by_cases h2 : a = "knowledge"
    · subst h2
      rw [if_pos rfl] at h
      exact Or.inr ⟨by decide, knowledge_node_ok h⟩
    · rw [if_neg h2] at h
      by_cases h3 : a = "planner"
      · subst h3
        rw [if_pos rfl] at h
        exact Or.inr ⟨by decide, planner_node_ok h⟩
      · rw [if_neg h3] at h
        by_cases h4 : a = "transaction"
        · subst h4
          rw [if_pos rfl] at h
          exact Or.inr ⟨by decide, transaction_node_ok h⟩
        · rw [if_neg h4] at h
          simp only [Except.ok.injEq] at h
          refine Or.inl ⟨h.symm, ?_⟩
          intro hmem
          simp only [valid_agents, List.mem_cons, List.mem_singleton,
            List.not_mem_nil] at hmem
          rcases hmem with h' | h' | h' | h' | h' <;> simp_all

theorem synthesizer_node_ok {H : Handlers ε} {t u : AgentState}
    (h : synthesizer_node H t = Except.ok u) :
    u.pending_agents = t.pending_agents ∧ u.completed_agents = t.completed_agents ∧
    u.agent_outputs = t.agent_outputs ∧ u.next_agent = t.next_agent ∧
    u.raw_query = t.raw_query ∧ u.user_id = t.user_id := by
  unfold synthesizer_node at h
  split at h
  · cases hh : t.agent_outputs.head? <;> rw [hh] at h <;>
      simp only [Except.ok.injEq] at h <;> subst h <;> exact ⟨rfl, rfl, rfl, rfl, rfl, rfl⟩
  · dsimp only at h
    cases hm : H.merge_llm t.raw_query (String.intercalate "\n\n"
        (t.agent_outputs.map
          (fun p => "=== " ++ p.fst.toUpper ++ " AGENT ===\n" ++ p.snd.response))) with
    | error e => rw [hm] at h; cases h
    | ok r =>
      rw [hm] at h
      simp only [Except.ok.injEq] at h
      subst h
      exact ⟨rfl, rfl, rfl, rfl, rfl, rfl⟩

/-! ### Dict and classifier lemmas -/

theorem dictInsert_keys (k : String) (v : CapabilityOutput)
    (l : List (String × CapabilityOutput)) :
    (dictInsert k v l).map Prod.fst =
      if k ∈ l.map Prod.fst then l.map Prod.fst else l.map Prod.fst ++ [k] := by
  induction l with
  | nil => simp [dictInsert]
  | cons p rest ih =>
    obtain ⟨k0, v0⟩ := p
    by_cases hk : k0 = k
    · subst hk
      simp [dictInsert]
    · simp only [dictInsert, if_neg hk, List.map_cons, ih]
      by_cases hmem : k ∈ rest.map Prod.fst
      · simp [hmem, Ne.symm hk]
      · simp [hmem, Ne.symm hk]

theorem dictInsert_keys_nodup {k : String} {v : CapabilityOutput}
    {l : List (String × CapabilityOutput)} (h : (l.map Prod.fst).Nodup) :
    ((dictInsert k v l).map Prod.fst).Nodup := by
  rw [dictInsert_keys]
  by_cases hmem : k ∈ l.map Prod.fst
  · simpa [hmem] using h
  · simp [hmem, List.nodup_append, h]

theorem dictGet_mem_keys {k : String} {l : List (String × CapabilityOutput)}
    {v : CapabilityOutput} (h : dictGet? k l = some v) : k ∈ l.map Prod.fst := by
  induction l with
  | nil => simp [dictGet?] at h
  | cons p rest ih =>
    obtain ⟨k0, v0⟩ := p
    by_cases hk : k0 = k
    · subst hk; simp
    · simp only [dictGet?, if_neg hk] at h
      simp [ih h]

theorem classify_subset (reply : Option ParsedDecision) :
    ∀ a ∈ (classify reply).fst, a ∈ valid_agents := by
  intro a ha
  unfold classify at ha
  dsimp only at ha
  split at ha
  · simp only [List.mem_singleton] at ha
    subst ha
    decide
  · have := List.of_mem_filter ha
    simpa [List.contains, List.elem_iff] using this

theorem classify_ne_nil (reply : Option ParsedDecision) :
    (classify reply).fst ≠ [] := by
  unfold classify
  dsimp only
  split
  · simp
  · next hemp =>
    intro hnil
    exact hemp (by rw [hnil]; rfl)

theorem valid_agent_cases {a : String} (h : a ∈ valid_agents) :
    a = "analyst" ∨ a = "knowledge" ∨ a = "planner" ∨ a = "transaction" := by
  simpa [valid_agents] using h

theorem valid_agent_not_empty {a : String} (h : a ∈ valid_agents) :
    a.isEmpty = false := by
  rcases valid_agent_cases h with h' | h' | h' | h' <;> subst h' <;> decide

theorem valid_agent_ne_synth {a : String} (h : a ∈ valid_agents) :
    a ≠ "synthesizer" := by
  rcases valid_agent_cases h with h' | h' | h' | h' <;> subst h' <;> decide

/-! ### The scheduler invariant -/

theorem Inv_router (reply : Option ParsedDecision) (uid : Nat) (q : String) :
    Inv (classify reply).fst (router_node reply (create_initial_state uid q)) := by
  unfold Inv router_node create_initial_state
  refine ⟨?_, ?_, ?_, ?_, ?_, ?_⟩ <;> simp

theorem determine_of_next {t : AgentState}
    (hns : determine_next_node t ≠ "synthesizer") :
    t.next_agent = some (determine_next_node t) := by
  unfold determine_next_node at hns ⊢
  cases hn : t.next_agent with
  | none => rw [hn] at hns; simp at hns
  | some a =>
    rw [hn] at hns
    by_cases he : a.isEmpty
    · simp [he] at hns
    · simp [he]

theorem Inv_step {H : Handlers ε} {plan : List String} {t u : AgentState}
    (hI : Inv plan t)
    (hns : determine_next_node t ≠ "synthesizer")
    (hok : dispatch H (determine_next_node t) t = Except.ok u) :
    Inv plan u := by
  obtain ⟨hunion, hnodup, hdisj, hnext, hvalid, hkeys⟩ := hI
  have hnx : t.next_agent = some (determine_next_node t) := determine_of_next hns
  set a := determine_next_node t with ha
  have hhead : t.pending_agents.head? = some a := by rw [← hnext, hnx]
  have hapend : a ∈ t.pending_agents := by
    cases hp : t.pending_agents with
    | nil => rw [hp] at hhead; simp at hhead
    | cons b rest =>
      rw [hp] at hhead
      simp only [List.head?_cons, Option.some.injEq] at hhead
      subst hhead
      simp
  rcases dispatch_ok hok with ⟨heq, _⟩ | ⟨hav, out, ho, hc, hp, hn, hr, hu, hf⟩
  · subst heq; exact ⟨hunion, hnodup, hdisj, hnext, hvalid, hkeys⟩
  · have hnotc : a ∉ t.completed_agents := by
      intro hac
      exact hdisj a hac hapend
    refine ⟨?_, ?_, ?_, ?_, ?_, ?_⟩
    · intro x
      rw [hp, hc]
      simp only [List.mem_filter, List.mem_append, List.mem_singleton, bne_iff_ne, ne_eq]
      constructor
      · rintro (⟨hxp, _⟩ | hxc | hxa)
        · exact (hunion x).mp (Or.inl hxp)
        · exact (hunion x).mp (Or.inr hxc)
        · exact (hunion x).mp (Or.inl (by rw [hxa]; exact hapend))
      · intro hxplan
        rcases (hunion x).mpr hxplan with hxp | hxc
        · by_cases hxa : x = a
          · exact Or.inr (Or.inr hxa)
          · exact Or.inl ⟨hxp, hxa⟩
        · exact Or.inr (Or.inl hxc)
    · rw [hc]
      simp [List.nodup_append, hnodup, hnotc]
    · intro x hx hxmem
      rw [hc] at hx
      rw [hp] at hxmem
      simp only [List.mem_filter, bne_iff_ne, ne_eq] at hxmem
      obtain ⟨hxp, hxa⟩ := hxmem
      simp only [List.mem_append, List.mem_singleton] at hx
      rcases hx with hxc | hxeq
      · exact hdisj x hxc hxp
      · exact hxa hxeq
    · exact hn
    · intro x hx
      rw [hc] at hx
      simp only [List.mem_append, List.mem_singleton] at hx
      rcases hx with hxc | hxa
      · exact hvalid x hxc
      · subst hxa; exact hav
    · rw [ho]
      exact dictInsert_keys_nodup hkeys

theorem Inv_reaches {H : Handlers ε} {reply : Option ParsedDecision}
    {uid : Nat} {q : String} {s : AgentState}
    (h : Reaches H (router_node reply (create_initial_state uid q)) s) :
    Inv (classify reply).fst s := by
  induction h with
  | refl => exact Inv_router reply uid q
  | step hr hns hok ih => exact Inv_step ih hns hok
  | synth hr heq hok ih =>
    obtain ⟨hp, hc, ho, hn, _, _⟩ := synthesizer_node_ok hok
    obtain ⟨hunion, hnodup, hdisj, hnext, hvalid, hkeys⟩ := ih
    rw [Inv, hp, hc, ho, hn]
    exact ⟨hunion, hnodup, hdisj, hnext, hvalid, hkeys⟩

theorem Reaches_raw {H : Handlers ε} {s t : AgentState}
    (h : Reaches H s t) : t.raw_query = s.raw_query := by
  induction h with
  | refl => rfl
  | step hr hns hok ih =>
    rcases dispatch_ok hok with ⟨heq, _⟩ | ⟨_, _, _, _, _, _, hraw, _, _⟩
    · rw [heq, ih]
    · rw [hraw, ih]
  | synth hr heq hok ih =>
    obtain ⟨_, _, _, _, hraw, _⟩ := synthesizer_node_ok hok
    rw [hraw, ih]

/-! ### Claim theorems: the classifier (C2, C6, C8) -/

/-- A one-character string (from Python iterating a JSON string) is never
one of the four multi-character capability ids. -/
theorem char_toString_not_mem (c : Char) : Char.toString c ∉ valid_agents := by
  intro hmem
  have hclen : (Char.toString c).length = 1 := rfl
  rcases valid_agent_cases hmem with h' | h' | h' | h' <;>
    rw [h'] at hclen <;> revert hclen <;> decide

/-- A JSON-string `agents_to_call` survives the comprehension as the empty
list: every character fails the membership test. -/
theorem filter_agents_strVal (s : String) :
    filter_agents (JsonAgentsField.strVal s) = Except.ok [] := by
  simp only [filter_agents, Except.ok.injEq]
  rw [List.filter_eq_nil_iff]
  intro a ha
  rcases List.mem_map.mp ha with ⟨c, _, rfl⟩
  simpa [List.contains, List.elem_iff] using char_toString_not_mem c

/-- Any list produced by the comprehension lies in the fixed 4-id set. -/
theorem filter_agents_ok {f : JsonAgentsField} {l' : List String}
    (h : filter_agents f = Except.ok l') : ∀ a ∈ l', a ∈ valid_agents := by
  intro a ha
  cases f with
  | list l =>
    simp only [filter_agents, Except.ok.injEq] at h
    subst h
    have := List.of_mem_filter ha
    simpa [List.contains, List.elem_iff] using this
  | strVal s =>
    simp only [filter_agents, Except.ok.injEq] at h
    subst h
    have := List.of_mem_filter ha
    simpa [List.contains, List.elem_iff] using this
  | nonIterable => simp [filter_agents] at h

/-- On well-shaped replies the full-domain `router_classify` coincides
with `classify`, so the two models agree wherever both are defined. -/
theorem router_classify_coincides (d : ParsedDecision) :
    router_classify (DecodedReply.dictObj (d.agents_to_call.map JsonAgentsField.list)
        d.reasoning) = Except.ok (classify (some d)) ∧
    router_classify DecodedReply.decodeFailure = Except.ok (classify none) := by
  constructor
  · cases hac : d.agents_to_call with
    | none => simp [router_classify, classify, filter_agents, hac]
    | some l => simp [router_classify, classify, filter_agents, hac]
  · rfl

/-- C2 counterexample: the oracle reply "[]" decodes to a JSON non-object,
so `decision.get("agents_to_call", ...)` raises an uncaught
`AttributeError` (the except-clause catches only `JSONDecodeError` and
`IndexError`): no plan is produced at all, refuting the claim in its
for-every-reply form. -/
theorem c2_counterexample :
    router_classify DecodedReply.nonDict = Except.error PyErr.attributeError ∧
    ¬ ∃ p : List String × String, router_classify DecodedReply.nonDict = Except.ok p := by
  refine ⟨rfl, ?_⟩
  rintro ⟨p, hp⟩
  simp [router_classify] at hp

/-- C2 amended: whenever the classifier body produces a plan at all, that
plan is non-empty and drawn from the fixed 4-id set; a reply decoding to
an object with a list-valued `agents_to_call` yields exactly the filtered
list (order preserved) with the `["analyst"]` default on empty filter; a
decode failure, a missing field, or a JSON-string field yield the default
plan.  But replies decoding to non-object JSON raise an uncaught
`AttributeError`, and a non-iterable `agents_to_call` raises an uncaught
`TypeError`: those replies produce no plan and abort the session. -/
theorem c2_plan_or_uncaught (reply : DecodedReply) :
    (∀ plan reasoning, router_classify reply = Except.ok (plan, reasoning) →
      plan ≠ [] ∧ ∀ a ∈ plan, a ∈ valid_agents) ∧
    (∀ ac rs l, reply = DecodedReply.dictObj ac rs →
      ac = some (JsonAgentsField.list l) →
      router_classify reply = Except.ok
        ((if (l.filter (fun a => valid_agents.contains a)).isEmpty then ["analyst"]
          else l.filter (fun a => valid_agents.contains a)), rs.getD "")) ∧
    (reply = DecodedReply.decodeFailure →
      router_classify reply = Except.ok (["analyst"], fallback_reasoning)) ∧
    (∀ rs, reply = DecodedReply.dictObj none rs →
      router_classify reply = Except.ok (["analyst"], rs.getD "")) ∧
    (∀ ac rs s, reply = DecodedReply.dictObj ac rs →
      ac = some (JsonAgentsField.strVal s) →
      router_classify reply = Except.ok (["analyst"], rs.getD "")) ∧
    (reply = DecodedReply.nonDict →
      router_classify reply = Except.error PyErr.attributeError) ∧
    (∀ ac rs, reply = DecodedReply.dictObj ac rs →
      ac = some JsonAgentsField.nonIterable →
      router_classify reply = Except.error PyErr.typeError) := by
  refine ⟨?_, ?_, ?_, ?_, ?_, ?_, ?_⟩
  · intro plan reasoning hp
    cases reply with
    | decodeFailure =>
      simp only [router_classify, Except.ok.injEq, Prod.mk.injEq] at hp
      obtain ⟨hp1, _⟩ := hp
      subst hp1
      exact ⟨by decide, by decide⟩
    | nonDict => simp [router_classify] at hp
    | dictObj ac rs =>
      simp only [router_classify] at hp
      cases hf : filter_agents (ac.getD (JsonAgentsField.list ["analyst"])) with
      | error e => rw [hf] at hp; cases hp
      | ok filtered =>
        rw [hf] at hp
        simp only [Except.ok.injEq, Prod.mk.injEq] at hp
        obtain ⟨hp1, _⟩ := hp
        subst hp1
        by_cases hemp : filtered.isEmpty = true
        · rw [if_pos hemp]
          exact ⟨by decide, by decide⟩
        · rw [if_neg hemp]
          refine ⟨?_, filter_agents_ok hf⟩
          intro hnil
          exact hemp (by rw [hnil]; rfl)
  · rintro ac rs l rfl hac
    subst hac
    rfl
  · rintro rfl
    rfl
  · rintro rs rfl
    rfl
  · rintro ac rs s rfl hac
    subst hac
    simp only [router_classify, Option.getD_some]
    rw [filter_agents_strVal]
    rfl
  · rintro rfl
    rfl
  · rintro ac rs rfl hac
    subst hac
    rfl

/-- Witness for C2 amended at a concrete well-shaped reply mixing one
unknown and one known id: the unknown id is filtered out, order
preserved. -/
theorem c2_plan_witness :
    router_classify (DecodedReply.dictObj (some (JsonAgentsField.list ["foo", "planner"]))
      (some "r")) = Except.ok (["planner"], "r") :=
  (c2_plan_or_uncaught _).2.1 _ _ ["foo", "planner"] rfl rfl

/-- C6 counterexample: the classifier performs no deduplication; an oracle
reply repeating a valid id yields a plan with that id twice. -/
theorem c6_counterexample :
    ¬ (classify (some ⟨some ["analyst", "analyst"], some "dup"⟩)).fst.Nodup := by
  decide

/-- C6 amended: the plan is duplicate-free whenever the oracle list is
(filtering preserves `Nodup`), and in every fallback case; but it is not
deduplicated by construction (see the counterexample). -/
theorem c6_plan_nodup_preserved :
    (∀ (d : ParsedDecision) (l : List String), d.agents_to_call = some l → l.Nodup →
      (classify (some d)).fst.Nodup) ∧
    (classify (none : Option ParsedDecision)).fst.Nodup ∧
    (∀ d : ParsedDecision, d.agents_to_call = none → (classify (some d)).fst.Nodup) := by
  refine ⟨?_, by decide, ?_⟩
  · intro d l hl hnd
    unfold classify
    dsimp only
    rw [hl]
    dsimp only [Option.getD_some]
    split
    · decide
    · exact hnd.filter _
  · intro d hd
    unfold classify
    dsimp only
    rw [hd]
    decide

/-- Witness for C6 amended, at a duplicate-free oracle reply. -/
theorem c6_witness :
    (classify (some ⟨some ["planner", "transaction"], some "r2"⟩)).fst.Nodup :=
  (c6_plan_nodup_preserved).1 ⟨some ["planner", "transaction"], some "r2"⟩
    ["planner", "transaction"] rfl (by decide)

/-- C8 counterexample: an oracle reply that decodes to a JSON object
lacking `agents_to_call` (here the empty object) yields the default plan
but with reasoning `""` taken from `decision.get("reasoning", "")`, not
the synthetic fallback string. -/
theorem c8_counterexample :
    ¬ classify (some ⟨none, none⟩) = (["analyst"], fallback_reasoning) := by
  decide

/-- C8 amended: a decode failure yields the default plan `["analyst"]`
together with the synthetic fallback reasoning string, and this decode
failure is the only case mapped to that synthetic string; a decoded object
lacking `agents_to_call` also yields the default plan, but its reasoning is
the object's `reasoning` field (empty string when absent), not the
synthetic string. -/
theorem c8_fallback_behaviour :
    classify none = (["analyst"], fallback_reasoning) ∧
    (∀ d : ParsedDecision, d.agents_to_call = none →
      (classify (some d)).fst = ["analyst"] ∧
      (classify (some d)).snd = d.reasoning.getD "") ∧
    (∀ d : ParsedDecision, (classify (some d)).snd = d.reasoning.getD "") := by
  refine ⟨rfl, ?_, ?_⟩
  · intro d hd
    constructor
    · unfold classify
      dsimp only
      rw [hd]
      decide
    · rfl
  · intro d
    rfl

/-- Witness for C8 amended at a concrete object lacking `agents_to_call`
but carrying a reasoning field. -/
theorem c8_witness :
    (classify (some ⟨none, some "just text"⟩)).fst = ["analyst"] ∧
    (classify (some ⟨none, some "just text"⟩)).snd = "just text" :=
  (c8_fallback_behaviour).2.1 ⟨none, some "just text"⟩ rfl

/-- C5 counterexample: the router does not clamp the plan length; an oracle
reply naming all four valid capabilities yields a plan of length 4 > 3. -/
theorem c5_counterexample :
    ¬ (classify (some ⟨some ["analyst", "knowledge", "planner", "transaction"],
        some "all four"⟩)).fst.length ≤ 3 := by
  decide

/-! ### Claim theorems: the scheduler state machine (C4, C5, C10) -/

/-- C4: in every reachable scheduler state after routing, pending and
completed partition the plan (their union is the plan as a set, completed
has no repeats, nothing ever leaves the plan — the plan is the fixed list
`(classify reply).fst`), and the step after each dispatch goes to the head
of pending when pending is non-empty and to the synthesizer otherwise. -/
theorem c4_partition_invariant {H : Handlers ε} {reply : Option ParsedDecision}
    {uid : Nat} {q : String} {s : AgentState}
    (h : Reaches H (router_node reply (create_initial_state uid q)) s) :
    (∀ x : String, (x ∈ s.pending_agents ∨ x ∈ s.completed_agents) ↔
      x ∈ (classify reply).fst) ∧
    s.completed_agents.Nodup ∧
    (∀ x ∈ s.completed_agents, x ∉ s.pending_agents) ∧
    (∀ a rest, s.pending_agents = a :: rest → determine_next_node s = a) ∧
    (s.pending_agents = [] → determine_next_node s = "synthesizer") := by
  obtain ⟨hunion, hnodup, hdisj, hnext, hvalid, hkeys⟩ := Inv_reaches h
  refine ⟨hunion, hnodup, hdisj, ?_, ?_⟩
  · intro a rest hp
    have hav : a ∈ valid_agents :=
      classify_subset reply a ((hunion a).mp (Or.inl (by rw [hp]; simp)))
    unfold determine_next_node
    rw [hnext, hp]
    simp [valid_agent_not_empty hav]
  · intro hp
    unfold determine_next_node
    rw [hnext, hp]
    rfl

/-- Witness for C4 at the freshly routed default session. -/
theorem c4_witness :
    (("analyst" ∈ (router_node none (create_initial_state 1 "hi")).pending_agents ∨
      "analyst" ∈ (router_node none (create_initial_state 1 "hi")).completed_agents) ↔
      "analyst" ∈ (classify (none : Option ParsedDecision)).fst) ∧
    (router_node none (create_initial_state 1 "hi")).completed_agents.Nodup :=
  ⟨(c4_partition_invariant (Reaches.refl (H := okHandlers) _)).1 "analyst",
   (c4_partition_invariant (Reaches.refl (H := okHandlers) _)).2.1⟩

/-- C5 amended: the number of capability dispatches before synthesis
(each successful dispatch appends exactly one id to `completed_agents`)
never exceeds the plan length, and never exceeds 4 (one per distinct
capability); but `len(plan) ≤ 3` itself does not hold for every oracle
reply — the router never clamps the plan length (see the
counterexample). -/
theorem c5_dispatch_bound {H : Handlers ε} {reply : Option ParsedDecision}
    {uid : Nat} {q : String} {s : AgentState}
    (h : Reaches H (router_node reply (create_initial_state uid q)) s) :
    s.completed_agents.length ≤ (classify reply).fst.length ∧
    s.completed_agents.length ≤ 4 := by
  obtain ⟨hunion, hnodup, hdisj, hnext, hvalid, hkeys⟩ := Inv_reaches h
  constructor
  · have hsub : ∀ x ∈ s.completed_agents.toFinset, x ∈ (classify reply).fst.toFinset := by
      intro x hx
      simp only [List.mem_toFinset] at hx ⊢
      exact (hunion x).mp (Or.inr hx)
    calc s.completed_agents.length = s.completed_agents.toFinset.card :=
          (List.toFinset_card_of_nodup hnodup).symm
      _ ≤ (classify reply).fst.toFinset.card := Finset.card_le_card hsub
      _ ≤ (classify reply).fst.length := List.toFinset_card_le _
  · have hsub : ∀ x ∈ s.completed_agents.toFinset, x ∈ valid_agents.toFinset := by
      intro x hx
      simp only [List.mem_toFinset] at hx ⊢
      exact hvalid x hx
    calc s.completed_agents.length = s.completed_agents.toFinset.card :=
          (List.toFinset_card_of_nodup hnodup).symm
      _ ≤ valid_agents.toFinset.card := Finset.card_le_card hsub
      _ ≤ 4 := by decide

/-- Witness for C5 amended at the freshly routed default session. -/
theorem c5_witness :
    (router_node none (create_initial_state 1 "hi")).completed_agents.length ≤
      (classify (none : Option ParsedDecision)).fst.length ∧
    (router_node none (create_initial_state 1 "hi")).completed_agents.length ≤ 4 :=
  c5_dispatch_bound (Reaches.refl (H := okHandlers) _)

/-- C10: even when the validated plan repeats a capability id, each
handler executes at most once per session: `completed_agents` never
repeats an id, `agent_outputs` holds at most one entry per id, a completed
id is never still pending, and a successful dispatch of a capability
removes every occurrence of its id from `pending_agents`. -/
theorem c10_handler_at_most_once {H : Handlers ε} {reply : Option ParsedDecision}
    {uid : Nat} {q : String} {s : AgentState}
    (h : Reaches H (router_node reply (create_initial_state uid q)) s) :
    s.completed_agents.Nodup ∧
    (s.agent_outputs.map Prod.fst).Nodup ∧
    (∀ x ∈ s.completed_agents, x ∉ s.pending_agents) ∧
    (∀ (a : String) (t u : AgentState), a ∈ valid_agents →
      dispatch H a t = Except.ok u → a ∉ u.pending_agents) := by
  obtain ⟨hunion, hnodup, hdisj, hnext, hvalid, hkeys⟩ := Inv_reaches h
  refine ⟨hnodup, hkeys, hdisj, ?_⟩
  intro a t u hav hok
  rcases dispatch_ok hok with ⟨_, hnv⟩ | ⟨_, _, _, _, hp, _⟩
  · exact absurd hav hnv
  · rw [hp]
    simp [List.mem_filter]

/-- Witness for C10 instantiated at a session whose oracle reply repeats
an id. -/
theorem c10_witness :
    (router_node (some ⟨some ["planner", "planner"], some "dup"⟩)
      (create_initial_state 7 "q")).completed_agents.Nodup ∧
    ((router_node (some ⟨some ["planner", "planner"], some "dup"⟩)
      (create_initial_state 7 "q")).agent_outputs.map Prod.fst).Nodup :=
  ⟨(c10_handler_at_most_once (Reaches.refl (H := okHandlers) _)).1,
   (c10_handler_at_most_once (Reaches.refl (H := okHandlers) _)).2.1⟩

/-! ### Claim theorems: synthesizer, context injection, error path (C3, C7, C9, C1) -/

/-- C3: when `agent_outputs` has exactly one entry at synthesis time, the
final response is that entry's response text byte-for-byte, and the result
does not depend on the merge LLM at all (no second model pass). -/
theorem c3_single_output_verbatim (H H2 : Handlers ε) (state : AgentState)
    (a : String) (out : CapabilityOutput)
    (h : state.agent_outputs = [(a, out)]) :
    synthesizer_node H state =
      Except.ok { state with final_response := some out.response } ∧
    synthesizer_node H state = synthesizer_node H2 state := by
  constructor <;> unfold synthesizer_node <;> rw [h] <;> rfl

/-- Witness for C3 at a concrete one-entry session state. -/
theorem c3_witness :
    synthesizer_node okHandlers
      { user_id := 1, raw_query := "q", next_agent := none, pending_agents := [],
        completed_agents := ["analyst"],
        agent_outputs := [("analyst", ⟨"the answer", [], none⟩)],
        final_response := none } =
      Except.ok
        { user_id := 1, raw_query := "q", next_agent := none, pending_agents := [],
          completed_agents := ["analyst"],
          agent_outputs := [("analyst", ⟨"the answer", [], none⟩)],
          final_response := some "the answer" } :=
  (c3_single_output_verbatim okHandlers errHandlers _ "analyst" ⟨"the answer", [], none⟩ rfl).1

/-- C7: context injection is one-directional and conditional: the
transaction handler always receives the raw query unmodified (the raw
query is never mutated along any reachable execution), the planner
receives the raw query unmodified whenever `agent_outputs` has no
transaction entry, and in particular in a reversed-order
`[planner, transaction]` plan the planner is dispatched first on the raw
query. -/
theorem c7_one_directional {H : Handlers ε} (reply : Option ParsedDecision)
    (uid : Nat) (raw : String) :
    (∀ t : AgentState, transaction_query t = t.raw_query ∧
      analyst_query t = t.raw_query ∧ knowledge_query t = t.raw_query) ∧
    (∀ t : AgentState, dictGet? "transaction" t.agent_outputs = none →
      planner_query t = t.raw_query) ∧
    (∀ s : AgentState, Reaches H (router_node reply (create_initial_state uid raw)) s →
      transaction_query s = raw) ∧
    ((classify reply).fst = ["planner", "transaction"] →
      determine_next_node (router_node reply (create_initial_state uid raw)) = "planner" ∧
      planner_query (router_node reply (create_initial_state uid raw)) = raw) := by
  refine ⟨fun t => ⟨rfl, rfl, rfl⟩, ?_, ?_, ?_⟩
  · intro t h
    unfold planner_query planner_context
    rw [h]
    exact String.append_empty t.raw_query
  · intro s hs
    exact Reaches_raw hs
  · intro hplan
    constructor
    · unfold determine_next_node router_node
      dsimp only
      rw [hplan]
      rfl
    · unfold planner_query planner_context router_node create_initial_state
      dsimp only
      exact String.append_empty raw

/-- Witness for C7 at a concrete reversed-order dual-action session. -/
theorem c7_witness :
    determine_next_node (router_node (some ⟨some ["planner", "transaction"], some "rev"⟩)
      (create_initial_state 3 "buy a phone")) = "planner" ∧
    planner_query (router_node (some ⟨some ["planner", "transaction"], some "rev"⟩)
      (create_initial_state 3 "buy a phone")) = "buy a phone" :=
  (c7_one_directional (H := okHandlers)
    (some ⟨some ["planner", "transaction"], some "rev"⟩) 3 "buy a phone").2.2.2 (by decide)

/-- C9: a handler error during dispatch is neither caught nor retried by
the scheduler: the whole run aborts with that error before synthesis (no
final response is produced from earlier capabilities), and the HTTP
boundary converts the propagated error into the generic apology with
`success = false` while recording `str(e)`. -/
theorem c9_error_propagation {H : Handlers ε} (f : ε → String) :
    (∀ (fuel : Nat) (state : AgentState) (e : ε),
      determine_next_node state ≠ "synthesizer" →
      dispatch H (determine_next_node state) state = Except.error e →
      runLoop H (fuel + 1) state = Except.error e) ∧
    (∀ (reply : Option ParsedDecision) (uid : Nat) (msg : String) (e : ε),
      process_query H reply uid msg = Except.error e →
      chat_message H reply (some uid) msg f =
        { response := "I\x27m sorry, I encountered an error. Please try again."
          agents_used := []
          success := false
          error := some (f e) }) := by
  constructor
  · intro fuel state e hns hd
    unfold runLoop
    dsimp only
    rw [if_neg hns, hd]
  · intro reply uid msg e hpq
    unfold chat_message
    dsimp only
    rw [hpq]

/-- Witness for C9: with always-raising handlers, a dual-action session
aborts with the error and the endpoint returns the apology. -/
theorem c9_witness :
    process_query errHandlers (some ⟨some ["transaction", "planner"], some "dual"⟩)
      1 "buy x" = Except.error () ∧
    chat_message errHandlers (some ⟨some ["transaction", "planner"], some "dual"⟩)
      (some 1) "buy x" (fun _ => "boom") =
      { response := "I\x27m sorry, I encountered an error. Please try again."
        agents_used := []
        success := false
        error := some "boom" } :=
  ⟨rfl, (c9_error_propagation (fun _ => "boom")).2
    (some ⟨some ["transaction", "planner"], some "dual"⟩) 1 "buy x" () rfl⟩

/-- C1: in every session whose validated plan is
`["transaction", "planner"]`, the router dispatches the transaction node
first; after it succeeds, the next dispatch is the planner, and the query
passed to the planner handler (`planner_query`) is the raw query followed
by the context block, which embeds the transaction output text verbatim —
in particular that query strictly contains the transaction response as a
substring. -/
theorem c1_dual_action_context {H : Handlers ε} {reply : Option ParsedDecision}
    {uid : Nat} {raw : String} {r : HandlerResult}
    (hplan : (classify reply).fst = ["transaction", "planner"])
    (ht : H.run_transaction uid raw = Except.ok r) :
    ∃ s2 : AgentState,
      determine_next_node (router_node reply (create_initial_state uid raw)) =
        "transaction" ∧
      dispatch H "transaction" (router_node reply (create_initial_state uid raw)) =
        Except.ok s2 ∧
      determine_next_node s2 = "planner" ∧
      dictGet? "transaction" s2.agent_outputs = some ⟨r.response, r.tool_calls, none⟩ ∧
      planner_query s2 =
        raw ++ ("\n\n[CONTEXT: A transaction was just recorded. Details: " ++
          r.response ++ "]\n" ++
          "Your task: Check if the user has any goals related to this purchase and update goal progress if applicable. First call get_goals_status to see all goals.") ∧
      (∃ pre post, planner_query s2 = pre ++ r.response ++ post ∧ pre ≠ "" ∧
        planner_query s2 ≠ r.response) := by
  refine ⟨{ user_id := uid
            raw_query := raw
            next_agent := some "planner"
            pending_agents := ["planner"]
            completed_agents := ["transaction"]
            agent_outputs := [("transaction", ⟨r.response, r.tool_calls, none⟩)]
            final_response := none }, ?_, ?_, rfl, rfl, rfl, ?_⟩
  · unfold determine_next_node router_node
    dsimp only
    rw [hplan]
    rfl
  · unfold dispatch transaction_node router_node create_initial_state
      transaction_query
    dsimp only
    rw [hplan, ht]
    rfl
  · refine ⟨raw ++ "\n\n[CONTEXT: A transaction was just recorded. Details: ",
      "]\n" ++ "Your task: Check if the user has any goals related to this purchase and update goal progress if applicable. First call get_goals_status to see all goals.",
      ?_, ?_, ?_⟩
    · unfold planner_query planner_context
      dsimp only
      rw [show dictGet? "transaction"
          [("transaction", (⟨r.response, r.tool_calls, none⟩ : CapabilityOutput))] =
          some ⟨r.response, r.tool_calls, none⟩ from rfl]
      simp [String.append_assoc]
    · intro hpre
      have hlen := congrArg String.length hpre
      rw [String.length_append] at hlen
      have h0 : 0 <
          ("\n\n[CONTEXT: A transaction was just recorded. Details: " : String).length := by
        decide
      simp at hlen
      omega
    · intro heq
      have hlen := congrArg String.length heq
      unfold planner_query planner_context at hlen
      dsimp only at hlen
      rw [show dictGet? "transaction"
          [("transaction", (⟨r.response, r.tool_calls, none⟩ : CapabilityOutput))] =
          some ⟨r.response, r.tool_calls, none⟩ from rfl] at hlen
      simp only [String.length_append] at hlen
      have h0 : 0 <
          ("\n\n[CONTEXT: A transaction was just recorded. Details: " : String).length := by
        decide
      omega

/-- Witness for C1 at a concrete dual-action session with the stub
handlers: the planner query embeds the transaction output. -/
theorem c1_witness :
    ∃ s2 : AgentState,
      determine_next_node (router_node (some ⟨some ["transaction", "planner"], some "dual"⟩)
        (create_initial_state 5 "bought a GPU for my gaming PC")) = "transaction" ∧
      dispatch okHandlers "transaction"
        (router_node (some ⟨some ["transaction", "planner"], some "dual"⟩)
          (create_initial_state 5 "bought a GPU for my gaming PC")) = Except.ok s2 ∧
      determine_next_node s2 = "planner" ∧
      dictGet? "transaction" s2.agent_outputs =
        some ⟨"txn recorded", ["add_transaction"], none⟩ ∧
      planner_query s2 =
        "bought a GPU for my gaming PC" ++
          ("\n\n[CONTEXT: A transaction was just recorded. Details: " ++
            "txn recorded" ++ "]\n" ++
            "Your task: Check if the user has any goals related to this purchase and update goal progress if applicable. First call get_goals_status to see all goals.") ∧
      (∃ pre post, planner_query s2 = pre ++ "txn recorded" ++ post ∧ pre ≠ "" ∧
        planner_query s2 ≠ "txn recorded") :=
  c1_dual_action_context (r := ⟨"txn recorded", ["add_transaction"]⟩) (by decide) rfl

end Supervisor
